import Mathlib

/-!
Verification of the savings-estimation core of the snowflake-sentinel
repository (src/agents/cfo_agent.py): the schedule-to-annual-runs
converter, the warehouse cost table, the improvement estimator and the
savings calculator.

Modelling conventions.
Python strings are modelled by Lean `String`; `str.lower()` by
`pyLower` (faithful on the ASCII fragment, which covers every
keyword and digit the code inspects).  `needle in hay` is modelled by
`strContains hay needle`.  `re.search(r"\d+", s)` returns the first
maximal run of decimal digits, modelled by `firstDigitRun`; calling
`.group()` on a failed search raises AttributeError, and dividing by a
zero magnitude raises ZeroDivisionError, so the converter lands in
`Except PyError Nat`.
Python computes `int((365*24*60) / m)` with IEEE-754 division followed by
truncation.  For a = 525600, 8760 or 365 and any positive integer m the
relative error of the float quotient is below 2^-52 while a < 2^53, so the
truncated float quotient always equals the exact floor `a / m` of natural
division; the embedding therefore uses `Nat` division directly.
Python floats in the savings calculator are modelled by `ℚ`; the inputs
exercised by the claims stay far from any rounding boundary, so the
rational model agrees with the float computation at every reported
precision.  `round(x, n)` is Python's banker rounding, modelled by
`pyRound`.
The Snowflake query in `get_task_execution_stats` is I/O; `calculate_savings`
receives its result as an explicit `Option ExecutionStats` argument.
-/

deriving instance DecidableEq for Except

/-- Python's `str.lower()` on the ASCII fragment: lower-case each
character. -/
def pyLower (s : String) : String :=
  ⟨s.data.map Char.toLower⟩

/-- Errors the Python code can raise in `_parse_schedule_to_annual_runs`:
calling `.group()` on a failed `re.search` raises `AttributeError`, and a
zero magnitude raises `ZeroDivisionError`. -/
inductive PyError where
  | attributeError : PyError
  | zeroDivisionError : PyError
  deriving DecidableEq, Repr

/-- Helper for `strContains`: does `needle` occur in the given character
list? -/
def containsAux (needle : List Char) : List Char → Bool
  | [] => needle.isEmpty
  | c :: rest => needle.isPrefixOf (c :: rest) || containsAux needle rest

/-- Python's `needle in hay` substring test. -/
def strContains (hay needle : String) : Bool :=
  containsAux needle.data hay.data

/-- First maximal run of decimal digits in a character list, as found by
`re.search(r"\d+", s)`; `none` when the search fails. -/
def firstDigitRun : List Char → Option (List Char)
  | [] => none
  | c :: cs => if c.isDigit then some (c :: cs.takeWhile Char.isDigit)
               else firstDigitRun cs

/-- Python's `int` on a nonempty string of decimal digits. -/
def digitsToNat (ds : List Char) : Nat :=
  ds.foldl (fun n c => 10 * n + (c.toNat - 48)) 0

/-- Embedding of `CFOAgent._parse_schedule_to_annual_runs`.  The Python
body lower-cases the schedule, branches on the unit keywords in the order
minute, hour, day, extracts the first digit run with `re.search(r"\d+", …)`
and returns `int(rate / magnitude)`; with no unit keyword it returns 365. -/
def parse_schedule_to_annual_runs (schedule : String) : Except PyError Nat :=
  let schedule_lower := pyLower schedule
  if strContains schedule_lower "minute" then
    match firstDigitRun schedule_lower.data with
    | none => .error .attributeError
    | some ds =>
        let minutes := digitsToNat ds
        if minutes = 0 then .error .zeroDivisionError
        else .ok ((365 * 24 * 60) / minutes)
  else if strContains schedule_lower "hour" then
    match firstDigitRun schedule_lower.data with
    | none => .error .attributeError
    | some ds =>
        let hours := digitsToNat ds
        if hours = 0 then .error .zeroDivisionError
        else .ok ((365 * 24) / hours)
  else if strContains schedule_lower "day" then
    match firstDigitRun schedule_lower.data with
    | none => .error .attributeError
    | some ds =>
        let days := digitsToNat ds
        if days = 0 then .error .zeroDivisionError
        else .ok (365 / days)
  else
    .ok 365

/-- The `warehouse_credits` dict of `get_warehouse_credits_per_hour`, in
source order. -/
def warehouse_credits : List (String × Nat) :=
  [("X-Small", 1), ("Small", 2), ("Medium", 4), ("Large", 8),
   ("X-Large", 16), ("2X-Large", 32), ("3X-Large", 64), ("4X-Large", 128)]

/-- Embedding of `CFOAgent.get_warehouse_credits_per_hour`:
`warehouse_credits.get(warehouse_size, 1)`. -/
def get_warehouse_credits_per_hour (warehouse_size : String) : Nat :=
  (List.lookup warehouse_size warehouse_credits).getD 1

/-- The `improvements` dict of `estimate_runtime_improvement`, in source
(insertion) order, which is the iteration order of a Python dict. -/
def improvements : List (String × Nat) :=
  [("division by zero", 5), ("missing column", 100), ("missing table", 100),
   ("case statement", 5), ("coalesce", 5), ("index", 30), ("partition", 40)]

/-- The `for keyword, improvement_pct in improvements.items()` loop body:
return the percentage of the first keyword contained in `s`, else 10. -/
def scanImprovements : List (String × Nat) → String → Nat
  | [], _ => 10
  | (keyword, improvement_pct) :: rest, s =>
      if strContains s keyword then improvement_pct
      else scanImprovements rest s

/-- Embedding of `CFOAgent.estimate_runtime_improvement`: scans
`fixed_sql.lower()` against `improvements`; `original_sql` is never read. -/
def estimate_runtime_improvement (original_sql fixed_sql : String) : Nat :=
  scanImprovements improvements (pyLower fixed_sql)

/-- Row returned by `get_task_execution_stats` (a dict in Python). -/
structure ExecutionStats where
  avg_execution_time_ms : ℚ
  warehouse_size : String
  execution_count : Nat
  deriving DecidableEq, Repr

/-- The dict returned by `calculate_savings`. -/
structure SavingsReport where
  task_name : String
  warehouse_size : String
  avg_execution_time_seconds : ℚ
  estimated_improvement_pct : Nat
  time_saved_per_run_seconds : ℚ
  credits_saved_per_run : ℚ
  executions_per_year : Nat
  annual_credits_saved : ℚ
  annual_cost_saved_usd : ℚ
  deriving DecidableEq, Repr

/-- Round a rational to the nearest integer, ties to even: the rounding
Python's builtin `round` applies. -/
def roundHalfEven (q : ℚ) : ℤ :=
  if q - (⌊q⌋ : ℚ) < 1 / 2 then ⌊q⌋
  else if q - (⌊q⌋ : ℚ) > 1 / 2 then ⌊q⌋ + 1
  else if ⌊q⌋ % 2 = 0 then ⌊q⌋
  else ⌊q⌋ + 1

/-- Python's `round(x, ndigits)` on the rational model. -/
def pyRound (q : ℚ) (ndigits : Nat) : ℚ :=
  (roundHalfEven (q * 10 ^ ndigits) : ℚ) / 10 ^ ndigits

/-- The placeholder stats `calculate_savings` substitutes when
`get_task_execution_stats` returns `None`. -/
def placeholderStats : ExecutionStats :=
  ⟨10000, "X-Small", 1⟩

/-- The local `avg_time_seconds = float(stats['avg_execution_time_ms']) / 1000`. -/
def avg_time_seconds (stats : ExecutionStats) : ℚ :=
  stats.avg_execution_time_ms / 1000

/-- The local `time_saved_seconds = avg_time_seconds * (improvement_pct / 100)`. -/
def time_saved_seconds (stats : ExecutionStats) (original_sql fixed_sql : String) : ℚ :=
  avg_time_seconds stats *
    ((estimate_runtime_improvement original_sql fixed_sql : ℚ) / 100)

/-- The local `credits_saved_per_run = credits_per_run_before -
credits_per_run_after`, kept as the source's explicit before/after
subtraction. -/
def credits_saved_per_run_raw (stats : ExecutionStats)
    (original_sql fixed_sql : String) : ℚ :=
  let credits_per_hour : ℚ := (get_warehouse_credits_per_hour stats.warehouse_size : ℚ)
  let before := (avg_time_seconds stats / 3600) * credits_per_hour
  let after := ((avg_time_seconds stats - time_saved_seconds stats original_sql fixed_sql) / 3600) * credits_per_hour
  before - after

/-- The local `annual_credits_saved = credits_saved_per_run * executions_per_year`. -/
def annual_credits_saved_raw (stats : ExecutionStats)
    (original_sql fixed_sql : String) (executions_per_year : Nat) : ℚ :=
  credits_saved_per_run_raw stats original_sql fixed_sql * (executions_per_year : ℚ)

/-- The local `annual_cost_saved = annual_credits_saved * self.credit_price`. -/
def annual_cost_saved_raw (credit_price : ℚ) (stats : ExecutionStats)
    (original_sql fixed_sql : String) (executions_per_year : Nat) : ℚ :=
  annual_credits_saved_raw stats original_sql fixed_sql executions_per_year * credit_price

/-- Embedding of `CFOAgent.calculate_savings`.  `stats?` is the value of
`get_task_execution_stats` (an external query); a `None` result is
replaced by the fixed placeholder.  The only exception the remaining body
can raise comes from `_parse_schedule_to_annual_runs`, so it is threaded
through `Except`.  Record fields follow the keys of the returned dict. -/
def calculate_savings (credit_price : ℚ) (stats? : Option ExecutionStats)
    (task_name original_sql fixed_sql task_schedule : String) :
    Except PyError SavingsReport :=
  let stats := stats?.getD placeholderStats
  match parse_schedule_to_annual_runs task_schedule with
  | .error e => .error e
  | .ok executions_per_year =>
      .ok ⟨task_name,
           stats.warehouse_size,
           pyRound (avg_time_seconds stats) 2,
           estimate_runtime_improvement original_sql fixed_sql,
           pyRound (time_saved_seconds stats original_sql fixed_sql) 2,
           pyRound (credits_saved_per_run_raw stats original_sql fixed_sql) 6,
           executions_per_year,
           pyRound (annual_credits_saved_raw stats original_sql fixed_sql executions_per_year) 2,
           pyRound (annual_cost_saved_raw credit_price stats original_sql fixed_sql executions_per_year) 2⟩


/-! Evaluation lemmas for `roundHalfEven` and `pyRound` away from ties. -/

/-- When the fractional part of `q` above `z` is below one half, banker
rounding returns `z`. -/
theorem roundHalfEven_of_lt (q : ℚ) (z : ℤ) (h1 : (z : ℚ) ≤ q)
    (h2 : q - (z : ℚ) < 1 / 2) : roundHalfEven q = z := by
  have hz : ⌊q⌋ = z := by
    rw [Int.floor_eq_iff]
    constructor
    · exact h1
    · linarith
  unfold roundHalfEven
  rw [hz, if_pos h2]

/-- When the fractional part of `q` above `z` is above one half, banker
rounding returns `z + 1`. -/
theorem roundHalfEven_of_gt (q : ℚ) (z : ℤ) (h1 : 1 / 2 < q - (z : ℚ))
    (h2 : q < (z : ℚ) + 1) : roundHalfEven q = z + 1 := by
  have hz : ⌊q⌋ = z := by
    rw [Int.floor_eq_iff]
    constructor
    · linarith
    · linarith
  unfold roundHalfEven
  rw [hz, if_neg (by linarith), if_pos h1]

/-- Evaluation of `pyRound` when the scaled value rounds down. -/
theorem pyRound_of_lt (q : ℚ) (n : Nat) (z : ℤ) (h1 : (z : ℚ) ≤ q * 10 ^ n)
    (h2 : q * 10 ^ n - (z : ℚ) < 1 / 2) : pyRound q n = (z : ℚ) / 10 ^ n := by
  unfold pyRound
  rw [roundHalfEven_of_lt (q * 10 ^ n) z h1 h2]

/-- Evaluation of `pyRound` when the scaled value rounds up. -/
theorem pyRound_of_gt (q : ℚ) (n : Nat) (z : ℤ) (h1 : 1 / 2 < q * 10 ^ n - (z : ℚ))
    (h2 : q * 10 ^ n < (z : ℚ) + 1) : pyRound q n = ((z : ℚ) + 1) / 10 ^ n := by
  unfold pyRound
  rw [roundHalfEven_of_gt (q * 10 ^ n) z h1 h2]
  push_cast
  ring

/-! Structural lemmas about the improvement-table scan. -/

/-- The scan returns the percentage of the first keyword of the table that
occurs in `s`: if the keywords before position `i` are all absent and the
keyword at `i` is present, the scan stops at `i`. -/
theorem scanImprovements_eq_of_first :
    ∀ (l : List (String × Nat)) (s : String) (i : Nat) (hi : i < l.length),
      ((l.take i).all fun p => ! strContains s p.1) = true →
      strContains s (l.get ⟨i, hi⟩).1 = true →
      scanImprovements l s = (l.get ⟨i, hi⟩).2 := by
  intro l
  induction l with
  | nil => intro s i hi _ _; simp at hi
  | cons hd tl ih =>
      intro s i hi hprev hcur
      obtain ⟨k, v⟩ := hd
      cases i with
      | zero =>
          simp only [List.get] at hcur ⊢
          simp [scanImprovements, hcur]
      | succ i =>
          have hk : strContains s k = false := by
            have := (List.all_eq_true.mp hprev) (k, v) (by simp [List.take])
            simpa using this
          have hrest : ((tl.take i).all fun p => ! strContains s p.1) = true := by
            rw [List.all_eq_true]
            intro p hp
            exact (List.all_eq_true.mp hprev) p (by simp [List.take, hp])
          simp only [List.get] at hcur ⊢
          simp only [scanImprovements, hk, Bool.false_eq_true, if_false]
          exact ih s i (by simpa using hi) hrest hcur

/-- When no keyword of the table occurs in `s`, the scan falls through to
the default of 10. -/
theorem scanImprovements_default :
    ∀ (l : List (String × Nat)) (s : String),
      (l.all fun p => ! strContains s p.1) = true →
      scanImprovements l s = 10 := by
  intro l
  induction l with
  | nil => intro s _; rfl
  | cons hd tl ih =>
      intro s h
      obtain ⟨k, v⟩ := hd
      have hk : strContains s k = false := by
        have := (List.all_eq_true.mp h) (k, v) (by simp)
        simpa using this
      have hrest : (tl.all fun p => ! strContains s p.1) = true := by
        rw [List.all_eq_true]
        intro p hp
        exact (List.all_eq_true.mp h) p (by simp [hp])
      simp only [scanImprovements, hk, Bool.false_eq_true, if_false]
      exact ih s hrest

/-- C1: for a schedule containing a unit keyword and a digit run of
positive value, the converter lower-cases the input, picks the first unit
keyword in priority order minute, hour, day, takes the first digit run as
the magnitude and returns the floor of the yearly rate divided by it; in
particular 5 MINUTE gives 105120, 1 HOUR gives 8760 and 1 DAY gives 365. -/
theorem C1_schedule_converter :
    (∀ (s : String) (ds : List Char),
      firstDigitRun (pyLower s).data = some ds →
      0 < digitsToNat ds →
      (strContains (pyLower s) "minute" = true →
        parse_schedule_to_annual_runs s = .ok ((365 * 24 * 60) / digitsToNat ds)) ∧
      (strContains (pyLower s) "minute" = false →
       strContains (pyLower s) "hour" = true →
        parse_schedule_to_annual_runs s = .ok ((365 * 24) / digitsToNat ds)) ∧
      (strContains (pyLower s) "minute" = false →
       strContains (pyLower s) "hour" = false →
       strContains (pyLower s) "day" = true →
        parse_schedule_to_annual_runs s = .ok (365 / digitsToNat ds))) ∧
    parse_schedule_to_annual_runs "5 MINUTE" = .ok 105120 ∧
    parse_schedule_to_annual_runs "1 HOUR" = .ok 8760 ∧
    parse_schedule_to_annual_runs "1 DAY" = .ok 365 := by
  refine ⟨?_, by decide, by decide, by decide⟩
  intro s ds hds hpos
  have hne : digitsToNat ds ≠ 0 := Nat.pos_iff_ne_zero.mp hpos
  refine ⟨?_, ?_, ?_⟩
  · intro hm
    simp [parse_schedule_to_annual_runs, hm, hds, hne]
  · intro hm hh
    simp [parse_schedule_to_annual_runs, hm, hh, hds, hne]
  · intro hm hh hd
    simp [parse_schedule_to_annual_runs, hm, hh, hd, hds, hne]

/-- C1 witness: the converter at the concrete schedule 7 minute. -/
theorem C1_schedule_converter_witness :
    parse_schedule_to_annual_runs "7 minute" = .ok 75085 := by
  have h := (C1_schedule_converter.1 "7 minute" ['7'] (by decide) (by decide)).1 (by decide)
  have h2 : (365 * 24 * 60) / digitsToNat ['7'] = 75085 := by decide
  rw [h2] at h
  exact h

/-- C2: the spec requires a MalformedScheduleError when a unit keyword is
present without a digit run, but no such error class exists anywhere in
the code; `re.search` returns None and `.group()` on None raises a plain
AttributeError, exactly the generic fault the spec rules out.  The
theorem evaluates the converter at the spec's own failing input. -/
theorem C2_malformed_schedule_attribute_fault :
    parse_schedule_to_annual_runs "MINUTE" = .error .attributeError := by
  decide

/-- C5: when no unit keyword occurs in the lower-cased schedule, the
converter silently returns 365, raising nothing; in particular on the
input no unit here. -/
theorem C5_no_unit_defaults_365 :
    (∀ s : String,
      strContains (pyLower s) "minute" = false →
      strContains (pyLower s) "hour" = false →
      strContains (pyLower s) "day" = false →
      parse_schedule_to_annual_runs s = .ok 365) ∧
    parse_schedule_to_annual_runs "no unit here" = .ok 365 := by
  refine ⟨?_, by decide⟩
  intro s hm hh hd
  simp [parse_schedule_to_annual_runs, hm, hh, hd]

/-- C5 witness: the converter at the concrete schedule weekly. -/
theorem C5_no_unit_defaults_365_witness :
    parse_schedule_to_annual_runs "weekly" = .ok 365 :=
  C5_no_unit_defaults_365.1 "weekly" (by decide) (by decide) (by decide)

/-- C9: the improvement estimate depends only on the fixed SQL; the
original SQL parameter is accepted but never inspected. -/
theorem C9_original_sql_not_inspected :
    ∀ (fixed_sql s1 s2 : String),
      estimate_runtime_improvement s1 fixed_sql =
      estimate_runtime_improvement s2 fixed_sql := by
  intro _ _ _
  rfl

/-- C10: a schedule whose first digit run is 0, such as 0 MINUTE, makes
the converter divide by zero: the zero magnitude is neither rejected as
malformed nor mapped to a defined result. -/
theorem C10_zero_magnitude_divides_by_zero :
    parse_schedule_to_annual_runs "0 MINUTE" = .error .zeroDivisionError ∧
    (∀ (s : String) (ds : List Char),
      strContains (pyLower s) "minute" = true →
      firstDigitRun (pyLower s).data = some ds →
      digitsToNat ds = 0 →
      parse_schedule_to_annual_runs s = .error .zeroDivisionError) := by
  refine ⟨by decide, ?_⟩
  intro s ds hm hds hz
  simp [parse_schedule_to_annual_runs, hm, hds, hz]

/-- C10 witness: the converter at the concrete schedule 00 minutes. -/
theorem C10_zero_magnitude_divides_by_zero_witness :
    parse_schedule_to_annual_runs "00 minutes" = .error .zeroDivisionError :=
  C10_zero_magnitude_divides_by_zero.2 "00 minutes" ['0', '0']
    (by decide) (by decide) (by decide)

/-- C3: the estimator lower-cases the fixed SQL and returns the
percentage of the first table keyword, in definition order, found as a
substring, with 10 when none matches; in particular COALESCE gives 5,
index gives 30 and an unrecognizable fix gives 10. -/
theorem C3_improvement_estimator :
    (∀ (original_sql fixed_sql : String) (i : Nat) (hi : i < improvements.length),
      ((improvements.take i).all fun p => ! strContains (pyLower fixed_sql) p.1) = true →
      strContains (pyLower fixed_sql) (improvements.get ⟨i, hi⟩).1 = true →
      estimate_runtime_improvement original_sql fixed_sql =
        (improvements.get ⟨i, hi⟩).2) ∧
    (∀ (original_sql fixed_sql : String),
      (improvements.all fun p => ! strContains (pyLower fixed_sql) p.1) = true →
      estimate_runtime_improvement original_sql fixed_sql = 10) ∧
    estimate_runtime_improvement "x" "fix uses COALESCE(x,0)" = 5 ∧
    estimate_runtime_improvement "x" "add an index" = 30 ∧
    estimate_runtime_improvement "x" "no recognizable pattern" = 10 := by
  refine ⟨?_, ?_, by decide, by decide, by decide⟩
  · intro original_sql fixed_sql i hi hprev hcur
    exact scanImprovements_eq_of_first improvements (pyLower fixed_sql) i hi hprev hcur
  · intro original_sql fixed_sql h
    exact scanImprovements_default improvements (pyLower fixed_sql) h

/-- C3 witness: the estimator at a fix mentioning partitioning, the last
table entry. -/
theorem C3_improvement_estimator_witness :
    estimate_runtime_improvement "y" "use partition pruning" = 40 := by
  have h := C3_improvement_estimator.1 "y" "use partition pruning" 6
    (by decide) (by decide) (by decide)
  have h2 : (improvements.get ⟨6, by decide⟩).2 = 40 := by decide
  rw [h2] at h
  exact h

/-- C4: the warehouse rate is an exact lookup in the fixed size table,
with 1, the X-Small rate, for any label outside the table; in particular
Medium gives 4 and unknown gives 1. -/
theorem C4_warehouse_credit_table :
    (∀ (k : String) (v : Nat), (k, v) ∈ warehouse_credits →
      get_warehouse_credits_per_hour k = v) ∧
    (∀ s : String, ((warehouse_credits.map Prod.fst).contains s) = false →
      get_warehouse_credits_per_hour s = 1) ∧
    get_warehouse_credits_per_hour "Medium" = 4 ∧
    get_warehouse_credits_per_hour "unknown" = 1 := by
  refine ⟨?_, ?_, by decide, by decide⟩
  · intro k v h
    fin_cases h <;> decide
  · intro s h
    simp [warehouse_credits] at h
    obtain ⟨h1, h2, h3, h4, h5, h6, h7, h8⟩ := h
    simp [get_warehouse_credits_per_hour, warehouse_credits, List.lookup,
      beq_eq_false_iff_ne.mpr h1, beq_eq_false_iff_ne.mpr h2,
      beq_eq_false_iff_ne.mpr h3, beq_eq_false_iff_ne.mpr h4,
      beq_eq_false_iff_ne.mpr h5, beq_eq_false_iff_ne.mpr h6,
      beq_eq_false_iff_ne.mpr h7, beq_eq_false_iff_ne.mpr h8]

/-- C4 witness: the table at the concrete labels Large and 5X-Large. -/
theorem C4_warehouse_credit_table_witness :
    get_warehouse_credits_per_hour "Large" = 8 ∧
    get_warehouse_credits_per_hour "5X-Large" = 1 :=
  ⟨C4_warehouse_credit_table.1 "Large" 8 (by decide),
   C4_warehouse_credit_table.2.1 "5X-Large" (by decide)⟩

/-- C6: a missing execution history is replaced by the fixed placeholder
of 10000 ms, X-Small and one execution, and the report is computed from
that placeholder; with the default 5 MINUTE schedule the call succeeds
and the placeholder values flow into the report. -/
theorem C6_missing_history_placeholder :
    (∀ (credit_price : ℚ) (task_name original_sql fixed_sql task_schedule : String),
      calculate_savings credit_price none task_name original_sql fixed_sql task_schedule =
      calculate_savings credit_price (some ⟨10000, "X-Small", 1⟩)
        task_name original_sql fixed_sql task_schedule) ∧
    (∀ (credit_price : ℚ) (task_name original_sql fixed_sql : String),
      ∃ r : SavingsReport,
        calculate_savings credit_price none task_name original_sql fixed_sql "5 MINUTE" =
          .ok r ∧
        r.warehouse_size = "X-Small" ∧
        r.avg_execution_time_seconds = 10 ∧
        r.executions_per_year = 105120) := by
  constructor
  · intro credit_price task_name original_sql fixed_sql task_schedule
    rfl
  · intro credit_price task_name original_sql fixed_sql
    have hp : parse_schedule_to_annual_runs "5 MINUTE" = .ok 105120 := by decide
    have havg : pyRound (avg_time_seconds placeholderStats) 2 = 10 := by
      rw [show avg_time_seconds placeholderStats = 10 by
            norm_num [avg_time_seconds, placeholderStats],
          pyRound_of_lt 10 2 1000 (by norm_num) (by norm_num)]
      norm_num
    refine ⟨⟨task_name, "X-Small",
             pyRound (avg_time_seconds placeholderStats) 2,
             estimate_runtime_improvement original_sql fixed_sql,
             pyRound (time_saved_seconds placeholderStats original_sql fixed_sql) 2,
             pyRound (credits_saved_per_run_raw placeholderStats original_sql fixed_sql) 6,
             105120,
             pyRound (annual_credits_saved_raw placeholderStats original_sql fixed_sql 105120) 2,
             pyRound (annual_cost_saved_raw credit_price placeholderStats original_sql fixed_sql 105120) 2⟩,
           ?_, rfl, havg, rfl⟩
    simp only [calculate_savings, hp, Option.getD]
    rfl

/-- Evaluation of the savings calculator on the demo scenario: 152 ms on
X-Small, a 5 MINUTE cadence, a division-by-zero fix and credit price 3. -/
theorem demo_scenario_report :
    calculate_savings 3 (some ⟨152, "X-Small", 1⟩) "T" "o"
        "fix for division by zero" "5 MINUTE" =
      .ok ⟨"T", "X-Small", 3/20, 5, 1/100, 1/500000, 105120, 11/50, 67/100⟩ := by
  have hp : parse_schedule_to_annual_runs "5 MINUTE" = .ok 105120 := by decide
  have he : estimate_runtime_improvement "o" "fix for division by zero" = 5 := by decide
  have havg : avg_time_seconds ⟨152, "X-Small", 1⟩ = 19/125 := by
    norm_num [avg_time_seconds]
  have hts : time_saved_seconds ⟨152, "X-Small", 1⟩ "o" "fix for division by zero"
      = 19/2500 := by
    rw [time_saved_seconds, he, havg]
    norm_num
  have hcr : credits_saved_per_run_raw ⟨152, "X-Small", 1⟩ "o" "fix for division by zero"
      = 19/9000000 := by
    simp only [credits_saved_per_run_raw, havg, hts,
      show get_warehouse_credits_per_hour
          (ExecutionStats.warehouse_size ⟨152, "X-Small", 1⟩) = 1 by decide]
    norm_num
  have han : annual_credits_saved_raw ⟨152, "X-Small", 1⟩ "o" "fix for division by zero"
      105120 = 1387/6250 := by
    rw [annual_credits_saved_raw, hcr]
    norm_num
  have hco : annual_cost_saved_raw 3 ⟨152, "X-Small", 1⟩ "o" "fix for division by zero"
      105120 = 4161/6250 := by
    rw [annual_cost_saved_raw, han]
    norm_num
  have p1 : pyRound ((19 : ℚ)/125) 2 = 3/20 := by
    rw [pyRound_of_lt ((19 : ℚ)/125) 2 15 (by norm_num) (by norm_num)]
    norm_num
  have p2 : pyRound ((19 : ℚ)/2500) 2 = 1/100 := by
    rw [pyRound_of_gt ((19 : ℚ)/2500) 2 0 (by norm_num) (by norm_num)]
    norm_num
  have p3 : pyRound ((19 : ℚ)/9000000) 6 = 1/500000 := by
    rw [pyRound_of_lt ((19 : ℚ)/9000000) 6 2 (by norm_num) (by norm_num)]
    norm_num
  have p4 : pyRound ((1387 : ℚ)/6250) 2 = 11/50 := by
    rw [pyRound_of_lt ((1387 : ℚ)/6250) 2 22 (by norm_num) (by norm_num)]
    norm_num
  have p5 : pyRound ((4161 : ℚ)/6250) 2 = 67/100 := by
    rw [pyRound_of_gt ((4161 : ℚ)/6250) 2 66 (by norm_num) (by norm_num)]
    norm_num
  simp only [calculate_savings, hp, Option.getD, havg, hts, hcr, han, hco, he,
    p1, p2, p3, p4, p5]

/-- C7: the spec's demo scenario (152 ms, X-Small, 5 MINUTE cadence, a
division-by-zero fix, credit price 3.0) does not produce the spec's
numbers: the code reports credits_saved_per_run 0.000002, annual credits
0.22 and annual cost 0.67 dollars, while the spec claims approximately
0.00000633, 0.665 and 1.996 — each a factor of the credit price 3 too
large; the reported annual cost falls short of the claimed one by far
more than any rounding slack. -/
theorem C7_demo_scenario_counterexample :
    calculate_savings 3 (some ⟨152, "X-Small", 1⟩) "T" "o"
        "fix for division by zero" "5 MINUTE" =
      .ok ⟨"T", "X-Small", 3/20, 5, 1/100, 1/500000, 105120, 11/50, 67/100⟩ ∧
    (67/100 : ℚ) + 1/10 < 1996/1000 ∧
    (1/500000 : ℚ) + 1/1000000 < 633/100000000 * 100 :=
  ⟨demo_scenario_report, by norm_num, by norm_num⟩

/-- C7 amended: the demo scenario as the code actually computes it: the
full-precision values are time_saved = 0.0076 s, credits_saved_per_run =
19/9000000 (about 0.0000021), annual credits 0.22192 and annual cost
0.66576 dollars, reported after rounding as 0.01, 0.000002, 0.22 and
0.67. -/
theorem C7_demo_scenario_amended :
    calculate_savings 3 (some ⟨152, "X-Small", 1⟩) "T" "o"
        "fix for division by zero" "5 MINUTE" =
      .ok ⟨"T", "X-Small", 3/20, 5, 1/100, 1/500000, 105120, 11/50, 67/100⟩ ∧
    avg_time_seconds ⟨152, "X-Small", 1⟩ = 152/1000 ∧
    time_saved_seconds ⟨152, "X-Small", 1⟩ "o" "fix for division by zero" = 76/10000 ∧
    credits_saved_per_run_raw ⟨152, "X-Small", 1⟩ "o" "fix for division by zero"
      = 19/9000000 ∧
    annual_credits_saved_raw ⟨152, "X-Small", 1⟩ "o" "fix for division by zero" 105120
      = 22192/100000 ∧
    annual_cost_saved_raw 3 ⟨152, "X-Small", 1⟩ "o" "fix for division by zero" 105120
      = 66576/100000 := by
  refine ⟨demo_scenario_report, ?_, ?_, ?_, ?_, ?_⟩
  · norm_num [avg_time_seconds]
  · rw [time_saved_seconds,
       show estimate_runtime_improvement "o" "fix for division by zero" = 5 by decide]
    norm_num [avg_time_seconds]
  · simp only [credits_saved_per_run_raw, time_saved_seconds,
      show estimate_runtime_improvement "o" "fix for division by zero" = 5 by decide,
      show get_warehouse_credits_per_hour
          (ExecutionStats.warehouse_size ⟨152, "X-Small", 1⟩) = 1 by decide]
    norm_num [avg_time_seconds]
  · simp only [annual_credits_saved_raw, credits_saved_per_run_raw, time_saved_seconds,
      show estimate_runtime_improvement "o" "fix for division by zero" = 5 by decide,
      show get_warehouse_credits_per_hour
          (ExecutionStats.warehouse_size ⟨152, "X-Small", 1⟩) = 1 by decide]
    norm_num [avg_time_seconds]
  · simp only [annual_cost_saved_raw, annual_credits_saved_raw, credits_saved_per_run_raw,
      time_saved_seconds,
      show estimate_runtime_improvement "o" "fix for division by zero" = 5 by decide,
      show get_warehouse_credits_per_hour
          (ExecutionStats.warehouse_size ⟨152, "X-Small", 1⟩) = 1 by decide]
    norm_num [avg_time_seconds]

/-- C8 amended: every report the calculator returns carries each numeric
field as the banker rounding of the corresponding full-precision value:
seconds fields to 2 places, credits_saved_per_run to 6 places,
annual_credits_saved to 2 places (not the 6 the spec states) and the
currency field to 2 places. -/
theorem C8_report_rounding :
    ∀ (credit_price : ℚ) (stats? : Option ExecutionStats)
      (task_name original_sql fixed_sql task_schedule : String) (n : Nat),
      parse_schedule_to_annual_runs task_schedule = .ok n →
      calculate_savings credit_price stats? task_name original_sql fixed_sql
          task_schedule =
        .ok ⟨task_name,
             (stats?.getD placeholderStats).warehouse_size,
             pyRound (avg_time_seconds (stats?.getD placeholderStats)) 2,
             estimate_runtime_improvement original_sql fixed_sql,
             pyRound (time_saved_seconds (stats?.getD placeholderStats)
               original_sql fixed_sql) 2,
             pyRound (credits_saved_per_run_raw (stats?.getD placeholderStats)
               original_sql fixed_sql) 6,
             n,
             pyRound (annual_credits_saved_raw (stats?.getD placeholderStats)
               original_sql fixed_sql n) 2,
             pyRound (annual_cost_saved_raw credit_price (stats?.getD placeholderStats)
               original_sql fixed_sql n) 2⟩ := by
  intro credit_price stats? task_name original_sql fixed_sql task_schedule n h
  simp only [calculate_savings, h]

/-- C8 witness: the rounding structure of the report at a concrete call
with no history and a 1 DAY schedule. -/
theorem C8_report_rounding_witness :
    calculate_savings 3 none "T" "o" "f" "1 DAY" =
      .ok ⟨"T",
           ((none : Option ExecutionStats).getD placeholderStats).warehouse_size,
           pyRound (avg_time_seconds ((none : Option ExecutionStats).getD placeholderStats)) 2,
           estimate_runtime_improvement "o" "f",
           pyRound (time_saved_seconds ((none : Option ExecutionStats).getD placeholderStats)
             "o" "f") 2,
           pyRound (credits_saved_per_run_raw ((none : Option ExecutionStats).getD placeholderStats)
             "o" "f") 6,
           365,
           pyRound (annual_credits_saved_raw ((none : Option ExecutionStats).getD placeholderStats)
             "o" "f" 365) 2,
           pyRound (annual_cost_saved_raw 3 ((none : Option ExecutionStats).getD placeholderStats)
             "o" "f" 365) 2⟩ :=
  C8_report_rounding 3 none "T" "o" "f" "1 DAY" 365 (by decide)

/-- C8 counterexample: with 152 ms stats, a coalesce fix and a 3 MINUTE
cadence the full-precision annual credits are 0.369866…; the report
carries 0.37, the 2-place rounding, while the 6-place rounding the claim
asserts would be 0.369867. -/
theorem C8_annual_credits_not_six_places :
    calculate_savings 3 (some ⟨152, "X-Small", 1⟩) "T" "o" "coalesce fix" "3 MINUTE" =
      .ok ⟨"T", "X-Small", 3/20, 5, 1/100, 1/500000, 175200, 37/100, 111/100⟩ ∧
    pyRound (annual_credits_saved_raw ⟨152, "X-Small", 1⟩ "o" "coalesce fix" 175200) 6
      = 369867/1000000 ∧
    ((369867 : ℚ)/1000000) ≠ 37/100 := by
  have hp : parse_schedule_to_annual_runs "3 MINUTE" = .ok 175200 := by decide
  have he : estimate_runtime_improvement "o" "coalesce fix" = 5 := by decide
  have havg : avg_time_seconds ⟨152, "X-Small", 1⟩ = 19/125 := by
    norm_num [avg_time_seconds]
  have hts : time_saved_seconds ⟨152, "X-Small", 1⟩ "o" "coalesce fix" = 19/2500 := by
    rw [time_saved_seconds, he, havg]
    norm_num
  have hcr : credits_saved_per_run_raw ⟨152, "X-Small", 1⟩ "o" "coalesce fix"
      = 19/9000000 := by
    simp only [credits_saved_per_run_raw, havg, hts,
      show get_warehouse_credits_per_hour
          (ExecutionStats.warehouse_size ⟨152, "X-Small", 1⟩) = 1 by decide]
    norm_num
  have han : annual_credits_saved_raw ⟨152, "X-Small", 1⟩ "o" "coalesce fix" 175200
      = 1387/3750 := by
    rw [annual_credits_saved_raw, hcr]
    norm_num
  have hco : annual_cost_saved_raw 3 ⟨152, "X-Small", 1⟩ "o" "coalesce fix" 175200
      = 1387/1250 := by
    rw [annual_cost_saved_raw, han]
    norm_num
  have p1 : pyRound ((19 : ℚ)/125) 2 = 3/20 := by
    rw [pyRound_of_lt ((19 : ℚ)/125) 2 15 (by norm_num) (by norm_num)]
    norm_num
  have p2 : pyRound ((19 : ℚ)/2500) 2 = 1/100 := by
    rw [pyRound_of_gt ((19 : ℚ)/2500) 2 0 (by norm_num) (by norm_num)]
    norm_num
  have p3 : pyRound ((19 : ℚ)/9000000) 6 = 1/500000 := by
    rw [pyRound_of_lt ((19 : ℚ)/9000000) 6 2 (by norm_num) (by norm_num)]
    norm_num
  have p6 : pyRound ((1387 : ℚ)/3750) 2 = 37/100 := by
    rw [pyRound_of_gt ((1387 : ℚ)/3750) 2 36 (by norm_num) (by norm_num)]
    norm_num
  have p7 : pyRound ((1387 : ℚ)/3750) 6 = 369867/1000000 := by
    rw [pyRound_of_gt ((1387 : ℚ)/3750) 6 369866 (by norm_num) (by norm_num)]
    norm_num
  refine ⟨?_, by rw [han]; exact p7, by norm_num⟩
  have p8 : pyRound ((1387 : ℚ)/1250) 2 = 111/100 := by
    rw [pyRound_of_gt ((1387 : ℚ)/1250) 2 110 (by norm_num) (by norm_num)]
    norm_num
  simp only [calculate_savings, hp, Option.getD, havg, hts, hcr, han, hco, he,
    p1, p2, p3, p6, p8]
